import Mathlib

/-!
Shallow embedding of the obstacle subsystem of the SDL Snake game
(`obstacle.h`/`part_010`, `moving_obstacle.cpp`, `movement_patterns.cpp`,
`obstacle_manager.cpp`), together with theorems settling the spec claims.

Conventions:
* C++ `int` is embedded as `Int`; C++ `float` quantities (speed, lifetime,
  spawn rate) are embedded as `ℚ` with exact arithmetic; the `float → int`
  conversion `static_cast<int>` (truncation toward zero) is `cppTrunc`.
* The trigonometric branches of `HandlePatternSwitch` (CIRCULAR, ZIGZAG) depend
  on floating-point `cos`/`sin`; the point they produce is abstracted as an
  oracle argument `trig`.  The random draw `dist(gen)` of the RANDOM_WALK
  branch is the argument `rnd`.  Every claim proved below is quantified over
  these arguments, so it holds for every outcome of the abstracted parts.
-/

namespace SnakeObstacles

/-- Embedding of the SDL `SDL_Point` (a pair of C `int` coordinates). -/
structure SDL_Point where
  x : Int
  y : Int
deriving DecidableEq, Repr

/-- Embedding of `enum class MovementPattern` from `part_010` (`moving_obstacle.h`). -/
inductive MovementPattern where
  | LINEAR_HORIZONTAL
  | LINEAR_VERTICAL
  | CIRCULAR
  | ZIGZAG
  | RANDOM_WALK
deriving DecidableEq, Repr

/-- Embedding of `enum class ObstacleType` from `obstacle.h`. -/
inductive ObstacleType where
  | FIXED
  | MOVING
deriving DecidableEq, Repr

/-- Embedding of a C++ `static_cast<int>` on a floating value: truncation toward zero. -/
def cppTrunc (q : ℚ) : Int :=
  if 0 ≤ q then ⌊q⌋ else -⌊-q⌋

/-- Embedding of `MovementPatterns::CalculateLinearMovement(current, direction,
speed)` (`movement_patterns.cpp` lines 10-29): displace by
`static_cast<int>(speed)` cells along direction 0=Up, 1=Right, 2=Down, 3=Left;
any other direction leaves the point unchanged. -/
def CalculateLinearMovement (current : SDL_Point) (direction : Int) (speed : ℚ) :
    SDL_Point :=
  if direction = 0 then { current with y := current.y - cppTrunc speed }
  else if direction = 1 then { current with x := current.x + cppTrunc speed }
  else if direction = 2 then { current with y := current.y + cppTrunc speed }
  else if direction = 3 then { current with x := current.x - cppTrunc speed }
  else current

/-- Embedding of the template `MovementPatterns::ValidateMovement`
(`movement_patterns.h` lines 487-500): apply `movementFunc` to `current`, then
send an x below 0 to `grid_width - 1`, an x at or above `grid_width` to 0, and
likewise for y. -/
def ValidateMovement (current : SDL_Point) (movementFunc : SDL_Point → SDL_Point)
    (grid_width grid_height : Int) : SDL_Point :=
  let new_pos := movementFunc current
  { x := if new_pos.x < 0 then grid_width - 1
         else if grid_width ≤ new_pos.x then 0
         else new_pos.x,
    y := if new_pos.y < 0 then grid_height - 1
         else if grid_height ≤ new_pos.y then 0
         else new_pos.y }

/-- Embedding of `MovementCalculator::HandlePatternSwitch`
(`movement_patterns.cpp` lines 107-143).  The LINEAR_HORIZONTAL branch calls
`CalculateLinearMovement` with direction `direction == 1 ? 0 : 2` (Up/Down),
the LINEAR_VERTICAL branch with `direction == 1 ? 1 : 3` (Right/Left).  The
CIRCULAR and ZIGZAG branches compute a point from floating trigonometry /
the zigzag path table; that point is the oracle `trig`.  The RANDOM_WALK
branch calls `CalculateLinearMovement` with the random draw `rnd`. -/
def HandlePatternSwitch (pattern : MovementPattern) (current : SDL_Point)
    (speed : ℚ) (direction : Int) (rnd : Int) (trig : SDL_Point) : SDL_Point :=
  match pattern with
  | .LINEAR_HORIZONTAL => CalculateLinearMovement current (if direction = 1 then 0 else 2) speed
  | .LINEAR_VERTICAL => CalculateLinearMovement current (if direction = 1 then 1 else 3) speed
  | .CIRCULAR => trig
  | .ZIGZAG => trig
  | .RANDOM_WALK => CalculateLinearMovement current rnd speed

/-- The mutable state of a `MovingObstacle` (`part_010` lines 15-52 and the
`Obstacle` base): position, the immutable grid bounds, the pattern, speed
(default `0.05f`), direction sign (default 1) and the movement counter. -/
structure MovingObstacleState where
  position : SDL_Point
  grid_width : Int
  grid_height : Int
  pattern : MovementPattern
  speed : ℚ
  direction : Int
  movement_counter : ℚ
deriving DecidableEq, Repr

namespace MovingObstacleState

/-- Embedding of `MovingObstacle::Update` (`moving_obstacle.cpp` lines 11-23):
compute `new_pos` with `ProcessMovement` (which just forwards to
`HandlePatternSwitch`), assign `position := ValidateMovement(position,
[new_pos](..){ return new_pos; }, grid_width, grid_height)`, then add `speed`
to `movement_counter`.  `direction` is passed to `ProcessMovement` by value
and is never written.  here `rnd` and `trig` stand for the random draw and
trigonometric results. -/
def Update (st : MovingObstacleState) (rnd : Int) (trig : SDL_Point) :
    MovingObstacleState :=
  let new_pos := HandlePatternSwitch st.pattern st.position st.speed st.direction
      rnd trig
  { st with
    position := ValidateMovement st.position (fun _ => new_pos)
      st.grid_width st.grid_height,
    movement_counter := st.movement_counter + st.speed }

/-- Run `Update` once per element of `inputs`, each element providing the
random draw and trigonometric oracle of that call. -/
def UpdateRun (st : MovingObstacleState) (inputs : List (Int × SDL_Point)) :
    MovingObstacleState :=
  inputs.foldl (fun s i => s.Update i.1 i.2) st

end MovingObstacleState

/-- A point is inside the grid: `x ∈ [0, gw)` and `y ∈ [0, gh)`. -/
def inGrid (p : SDL_Point) (gw gh : Int) : Prop :=
  0 ≤ p.x ∧ p.x < gw ∧ 0 ≤ p.y ∧ p.y < gh

instance (p : SDL_Point) (gw gh : Int) : Decidable (inGrid p gw gh) := by
  unfold inGrid; infer_instance

/-- The constant `FLT_EPSILON`, the `std::numeric_limits<float>::epsilon()` threshold used
by `Obstacle::IsExpired` (`part_010` lines 77-80), as an exact rational. -/
def fltEpsilon : ℚ := 1 / 2 ^ 23

/-- Embedding of `Obstacle::DecrementLifetime` (`part_010` lines 86-89):
store `max(0.0f, current - delta_time)`. -/
def DecrementLifetime (remaining delta_time : ℚ) : ℚ :=
  max 0 (remaining - delta_time)

/-- Embedding of `Obstacle::IsExpired` (`part_010` lines 77-80):
`remaining_lifetime < epsilon`. -/
def IsExpired (remaining : ℚ) : Bool :=
  remaining < fltEpsilon

/-- An element of the obstacle collection of the manager.  `FixedObstacle` carries
only the base-class fields; for it `pattern` and `speed` are the
`MovingObstacle` defaults and are never read.  `MovingObstacle` adds the
pattern and the speed (default `0.05f`, i.e. the value that the
manager-driven `SetSpeed` overwrites right after `AddMovingObstacle` constructs it). -/
structure Obstacle where
  position : SDL_Point
  otype : ObstacleType
  remaining_lifetime : ℚ
  pattern : MovementPattern := .LINEAR_HORIZONTAL
  speed : ℚ := 1 / 20
deriving DecidableEq, Repr

namespace Obstacle

/-- Embedding of `Obstacle::CollidesWithPoint` (`part_010` lines 91-93):
exact cell equality. -/
def CollidesWithPoint (o : Obstacle) (x y : Int) : Bool :=
  o.position.x = x && o.position.y = y

/-- Expiration test on the lifetime field of an obstacle, via `IsExpired`. -/
def isExpired (o : Obstacle) : Bool :=
  IsExpired o.remaining_lifetime

end Obstacle

/-- The state of an `ObstacleManager` (`obstacle_manager.h`): grid bounds,
the obstacle collection, and the configuration fields with their in-class
initializers (`difficulty_level{1}`, `moving_obstacle_speed{0.05f}`,
`spawn_rate{0.5f}`, `spawn_timer{0.0f}`). -/
structure ObstacleManager where
  grid_width : Int
  grid_height : Int
  obstacles : List Obstacle := []
  difficulty_level : Int := 1
  moving_obstacle_speed : ℚ := 1 / 20
  spawn_rate : ℚ := 1 / 2
  spawn_timer : ℚ := 0
deriving DecidableEq, Repr

namespace ObstacleManager

/-- Embedding of `ObstacleManager::CheckCollisionWithPoint`
(`obstacle_manager.cpp` lines 80-85): `std::any_of` over the collection. -/
def CheckCollisionWithPoint (m : ObstacleManager) (x y : Int) : Bool :=
  m.obstacles.any (fun o => o.CollidesWithPoint x y)

/-- Embedding of `ObstacleManager::IsPositionFree`
(`obstacle_manager.cpp` lines 146-148). -/
def IsPositionFree (m : ObstacleManager) (x y : Int) : Bool :=
  !m.CheckCollisionWithPoint x y

/-- Embedding of `ObstacleManager::AddFixedObstacle`
(`obstacle_manager.cpp` lines 15-19): if the cell is in bounds and free,
append a `FixedObstacle` constructed there; otherwise do nothing. -/
def AddFixedObstacle (m : ObstacleManager) (x y : Int) (lifetime : ℚ) :
    ObstacleManager :=
  if 0 ≤ x ∧ x < m.grid_width ∧ 0 ≤ y ∧ y < m.grid_height ∧
      m.IsPositionFree x y = true then
    { m with obstacles := m.obstacles ++
        [{ position := ⟨x, y⟩, otype := .FIXED, remaining_lifetime := lifetime }] }
  else m

/-- Embedding of `ObstacleManager::AddMovingObstacle`
(`obstacle_manager.cpp` lines 21-27): if the cell is in bounds and free,
append a `MovingObstacle` constructed there and set its speed to the
field `moving_obstacle_speed` of the manager; otherwise do nothing. -/
def AddMovingObstacle (m : ObstacleManager) (x y : Int)
    (pattern : MovementPattern) (lifetime : ℚ) : ObstacleManager :=
  if 0 ≤ x ∧ x < m.grid_width ∧ 0 ≤ y ∧ y < m.grid_height ∧
      m.IsPositionFree x y = true then
    { m with obstacles := m.obstacles ++
        [{ position := ⟨x, y⟩, otype := .MOVING, remaining_lifetime := lifetime,
           pattern := pattern, speed := m.moving_obstacle_speed }] }
  else m

/-- Embedding of `ObstacleManager::ClearExpiredObstacles`
(`obstacle_manager.cpp` lines 46-54): erase-remove of every obstacle whose
`IsExpired()` is true, keeping the survivors in order. -/
def ClearExpiredObstacles (m : ObstacleManager) : ObstacleManager :=
  { m with obstacles := m.obstacles.filter (fun o => !o.isExpired) }

/-- Embedding of `ObstacleManager::UpdateObstacleLifetimes`
(`obstacle_manager.cpp` lines 66-70): decrement the lifetime of every obstacle. -/
def UpdateObstacleLifetimes (m : ObstacleManager) (delta_time : ℚ) :
    ObstacleManager :=
  { m with obstacles := m.obstacles.map (fun o =>
      { o with remaining_lifetime := DecrementLifetime o.remaining_lifetime delta_time }) }

/-- Embedding of `ObstacleManager::SetDifficultyLevel`
(`obstacle_manager.cpp` lines 116-122): store the level, set
`spawn_rate = 0.3f + level * 0.1f` and
`moving_obstacle_speed = 0.05f + level * 0.01f`.  Nothing else is touched:
in particular the obstacle collection is not traversed. -/
def SetDifficultyLevel (m : ObstacleManager) (level : Int) : ObstacleManager :=
  { m with
    difficulty_level := level,
    spawn_rate := 3 / 10 + level * (1 / 10),
    moving_obstacle_speed := 1 / 20 + level * (1 / 100) }

/-- Embedding of `ObstacleManager::SetMovingObstacleSpeed`
(`obstacle_manager.cpp` lines 124-133): store the speed and call `SetSpeed`
on every obstacle whose `GetType()` is `MOVING`. -/
def SetMovingObstacleSpeed (m : ObstacleManager) (speed : ℚ) : ObstacleManager :=
  { m with
    moving_obstacle_speed := speed,
    obstacles := m.obstacles.map (fun o =>
      if o.otype = .MOVING then { o with speed := speed } else o) }

/-- Embedding of `GetObstacleCount` (`obstacle_manager.h` line 217). -/
def GetObstacleCount (m : ObstacleManager) : Nat :=
  m.obstacles.length

end ObstacleManager

/-- A displacement of `n` cells in cardinal direction 0=Up, 1=Right, 2=Down,
3=Left.  Spec-side helper used to state what the amended random-walk claim
says: the per-call displacement is `n = trunc(speed)` cells. -/
def stepCells (p : SDL_Point) (d : Int) (n : Int) : SDL_Point :=
  if d = 0 then { p with y := p.y - n }
  else if d = 1 then { p with x := p.x + n }
  else if d = 2 then { p with y := p.y + n }
  else if d = 3 then { p with x := p.x - n }
  else p

/-- Wrap a point to the opposite edge when it leaves the grid.  Spec-side
helper used to state what the amended movement claims say. -/
def wrapPoint (p : SDL_Point) (gw gh : Int) : SDL_Point :=
  { x := if p.x < 0 then gw - 1 else if gw ≤ p.x then 0 else p.x,
    y := if p.y < 0 then gh - 1 else if gh ≤ p.y then 0 else p.y }

/-- The obstacle of the C1 scenario: created at (0,0) on a 5×5 grid with pattern
LINEAR_HORIZONTAL, speed 1, direction +1, counter 0. -/
def c1_start : MovingObstacleState :=
  { position := ⟨0, 0⟩, grid_width := 5, grid_height := 5,
    pattern := .LINEAR_HORIZONTAL, speed := 1, direction := 1,
    movement_counter := 0 }

/-- The obstacle of the C3 counterexample: created at (0,0) on a 5×5 grid with
pattern RANDOM_WALK, speed 1, direction +1, counter 0. -/
def c3_start : MovingObstacleState :=
  { position := ⟨0, 0⟩, grid_width := 5, grid_height := 5,
    pattern := .RANDOM_WALK, speed := 1, direction := 1,
    movement_counter := 0 }

/-- The manager of the C2 counterexample: a 10×10 grid holding one moving obstacle
spawned at (2,2) while `moving_obstacle_speed` still had its default value
`0.05f`, so the speed stored in the obstacle is 1/20. -/
def c2_manager : ObstacleManager :=
  ObstacleManager.AddMovingObstacle
    { grid_width := 10, grid_height := 10 } 2 2 .LINEAR_HORIZONTAL 7

/-- The manager of the C6 scenario: a 10×10 grid with one Static (fixed) obstacle
spawned at (3,3) with lifetime 1.0 s. -/
def c6_manager : ObstacleManager :=
  ObstacleManager.AddFixedObstacle
    { grid_width := 10, grid_height := 10 } 3 3 1

/-! ## Helper lemmas -/

/-- Whatever point the movement function proposes, `ValidateMovement` lands
inside a nonempty grid. -/
lemma validateMovement_inGrid (p : SDL_Point) (f : SDL_Point → SDL_Point)
    (gw gh : Int) (hgw : 1 ≤ gw) (hgh : 1 ≤ gh) :
    inGrid (ValidateMovement p f gw gh) gw gh := by
  unfold ValidateMovement inGrid
  dsimp only
  constructor
  · split <;> [omega; (split <;> omega)]
  constructor
  · split <;> [omega; (split <;> omega)]
  constructor
  · split <;> [omega; (split <;> omega)]
  · split <;> [omega; (split <;> omega)]

/-- The function `Update` never touches the grid-dimension fields. -/
lemma update_grid_fields (st : MovingObstacleState) (rnd : Int)
    (trig : SDL_Point) :
    (st.Update rnd trig).grid_width = st.grid_width ∧
      (st.Update rnd trig).grid_height = st.grid_height := by
  constructor <;> rfl

/-- Truncation of a speed in `[0, 1)` is zero. -/
lemma cppTrunc_eq_zero {s : ℚ} (h0 : 0 ≤ s) (h1 : s < 1) : cppTrunc s = 0 := by
  unfold cppTrunc
  rw [if_pos h0]
  exact Int.floor_eq_zero_iff.mpr ⟨h0, h1⟩

/-- A fold of clamped decrements is bounded by the clamped total decrement. -/
lemma foldl_decrement_le (ds : List ℚ) :
    ∀ r : ℚ, (∀ d ∈ ds, 0 ≤ d) →
      ds.foldl DecrementLifetime r ≤ max 0 (r - ds.sum) := by
  induction ds with
  | nil => intro r _; simp
  | cons d ds ih =>
      intro r hnn
      have hd : 0 ≤ d := hnn d (List.mem_cons_self d ds)
      have hds : ∀ d' ∈ ds, 0 ≤ d' := fun d' h => hnn d' (List.mem_cons_of_mem d h)
      have hsum : 0 ≤ ds.sum := List.sum_nonneg hds
      have step := ih (DecrementLifetime r d) hds
      have : max 0 (DecrementLifetime r d - ds.sum) ≤ max 0 (r - (d :: ds).sum) := by
        unfold DecrementLifetime
        simp only [List.sum_cons]
        rcases le_total (r - d) 0 with hrd | hrd
        · rw [max_eq_left hrd, max_eq_left (by linarith : (0 : ℚ) - ds.sum ≤ 0)]
          exact le_max_left _ _
        · rw [max_eq_right hrd]
          apply max_le_max le_rfl
          linarith
      exact le_trans step this

/-- Unfolding of the effect of `Update` on the position. -/
lemma update_position (st : MovingObstacleState) (rnd : Int) (trig : SDL_Point) :
    (st.Update rnd trig).position
      = ValidateMovement st.position
          (fun _ => HandlePatternSwitch st.pattern st.position st.speed
            st.direction rnd trig)
          st.grid_width st.grid_height := rfl

/-- Applying `ValidateMovement` to a constant movement function clamps exactly as
`wrapPoint`. -/
lemma validateMovement_const_eq_wrapPoint (cur p : SDL_Point) (gw gh : Int) :
    ValidateMovement cur (fun _ => p) gw gh = wrapPoint p gw gh := rfl

/-- The clamp `wrapPoint` fixes every point already inside the grid. -/
lemma wrapPoint_of_inGrid (p : SDL_Point) (gw gh : Int) (h : inGrid p gw gh) :
    wrapPoint p gw gh = p := by
  obtain ⟨hx0, hx1, hy0, hy1⟩ := h
  unfold wrapPoint
  rw [if_neg (by omega), if_neg (by omega), if_neg (by omega), if_neg (by omega)]

/-- When the truncated speed is zero, `CalculateLinearMovement` is the
identity, whatever the direction. -/
lemma calculateLinearMovement_trunc_zero (p : SDL_Point) (d : Int) (s : ℚ)
    (h : cppTrunc s = 0) : CalculateLinearMovement p d s = p := by
  cases p
  unfold CalculateLinearMovement
  rw [h]
  split_ifs <;> simp

/-! ## Claim theorems -/

/-- C4: a Moving obstacle constructed at an in-bounds cell of a grid with
`gridWidth ≥ 1` and `gridHeight ≥ 1` stays at an in-bounds cell after any
number of `Update()` calls, for every movement pattern and every outcome of
the random draws and trigonometric computations. -/
theorem C4_boundary_containment (st : MovingObstacleState)
    (inputs : List (Int × SDL_Point))
    (hgw : 1 ≤ st.grid_width) (hgh : 1 ≤ st.grid_height)
    (hpos : inGrid st.position st.grid_width st.grid_height) :
    inGrid (st.UpdateRun inputs).position st.grid_width st.grid_height := by
  induction inputs generalizing st with
  | nil => exact hpos
  | cons i rest ih =>
      have hstep : inGrid (st.Update i.1 i.2).position st.grid_width
          st.grid_height := by
        rw [update_position]
        exact validateMovement_inGrid _ _ _ _ hgw hgh
      exact ih (st.Update i.1 i.2) hgw hgh hstep

/-- Witness for C4: a CIRCULAR obstacle on a 5×5 grid stays in bounds across
two updates whose trigonometric oracles propose far out-of-bounds cells. -/
theorem C4_witness :
    inGrid ((MovingObstacleState.UpdateRun
      { position := ⟨2, 3⟩, grid_width := 5, grid_height := 5,
        pattern := .CIRCULAR, speed := 1, direction := 1,
        movement_counter := 0 }
      [(0, ⟨100, -7⟩), (3, ⟨-1, 9⟩)]).position) 5 5 :=
  C4_boundary_containment _ _ (by decide) (by decide) (by decide)

/-- C10: a Moving obstacle with pattern LINEAR_HORIZONTAL or LINEAR_VERTICAL
and speed `s` with `0 ≤ s < 1` (the default 0.05 of the manager included) does not
move: the per-tick displacement is the integer truncation of `s`, which is
zero, and validation leaves an in-bounds position unchanged. -/
theorem C10_linear_fractional_speed_no_move (st : MovingObstacleState)
    (rnd : Int) (trig : SDL_Point)
    (hpat : st.pattern = .LINEAR_HORIZONTAL ∨ st.pattern = .LINEAR_VERTICAL)
    (h0 : 0 ≤ st.speed) (h1 : st.speed < 1)
    (hpos : inGrid st.position st.grid_width st.grid_height) :
    (st.Update rnd trig).position = st.position := by
  have htr : cppTrunc st.speed = 0 := cppTrunc_eq_zero h0 h1
  rw [update_position, validateMovement_const_eq_wrapPoint]
  rcases hpat with hp | hp <;> rw [hp] <;>
    · simp only [HandlePatternSwitch]
      rw [calculateLinearMovement_trunc_zero _ _ _ htr]
      exact wrapPoint_of_inGrid _ _ _ hpos

/-- Witness for C10: a LINEAR_HORIZONTAL obstacle at (2,3) on an 8×8 grid
with the default speed 0.05 stays at (2,3). -/
theorem C10_witness :
    (MovingObstacleState.Update
      { position := ⟨2, 3⟩, grid_width := 8, grid_height := 8,
        pattern := .LINEAR_HORIZONTAL, speed := 1/20, direction := 1,
        movement_counter := 0 } 0 ⟨0, 0⟩).position = ⟨2, 3⟩ :=
  C10_linear_fractional_speed_no_move _ 0 ⟨0, 0⟩ (Or.inl rfl)
    (by norm_num) (by norm_num) (by decide)

/-- The single Static obstacle the C6 scenario spawns. -/
lemma c6_manager_obstacles :
    c6_manager.obstacles
      = [{ position := ⟨3, 3⟩, otype := .FIXED, remaining_lifetime := 1 }] := by
  unfold c6_manager ObstacleManager.AddFixedObstacle
  rw [if_pos (by decide)]
  rfl

/-- The C6 decrements evaluate to 1/2 and then 0. -/
lemma c6_decrements :
    DecrementLifetime 1 (1/2) = 1/2 ∧ DecrementLifetime (1/2) (3/5) = 0 := by
  constructor
  · unfold DecrementLifetime
    rw [max_eq_right (by norm_num : (0 : ℚ) ≤ 1 - 1/2)]
    norm_num
  · unfold DecrementLifetime
    rw [max_eq_left (by norm_num : (1 : ℚ)/2 - 3/5 ≤ 0)]

/-- A lifetime of 1/2 is not below the epsilon threshold; zero is. -/
lemma c6_expired_values : IsExpired (1/2) = false ∧ IsExpired 0 = true := by
  constructor
  · simp only [IsExpired, decide_eq_false_iff_not, not_lt]
    norm_num [fltEpsilon]
  · simp only [IsExpired, decide_eq_true_eq]
    norm_num [fltEpsilon]

/-- C6: an obstacle constructed with lifetime L is expired after cumulative
nonnegative decrements summing to at least L; in the literal scenario, the
Static obstacle at (3,3) with lifetime 1.0 s is not expired after a 0.5 s
decrement, is expired after a further 0.6 s decrement, and
`ClearExpiredObstacles()` then drops the collection from 1 obstacle to 0. -/
theorem C6_expiration_threshold :
    (∀ (L : ℚ) (ds : List ℚ), (∀ d ∈ ds, 0 ≤ d) → L ≤ ds.sum →
        IsExpired (ds.foldl DecrementLifetime L) = true) ∧
      (c6_manager.GetObstacleCount = 1) ∧
      ((c6_manager.UpdateObstacleLifetimes (1/2)).obstacles.map
          Obstacle.isExpired = [false]) ∧
      (((c6_manager.UpdateObstacleLifetimes (1/2)).UpdateObstacleLifetimes
          (3/5)).obstacles.map Obstacle.isExpired = [true]) ∧
      (((c6_manager.UpdateObstacleLifetimes (1/2)).UpdateObstacleLifetimes
          (3/5)).ClearExpiredObstacles.GetObstacleCount = 0) := by
  have hobs1 : (c6_manager.UpdateObstacleLifetimes (1/2)).obstacles
      = [{ position := ⟨3, 3⟩, otype := .FIXED, remaining_lifetime := 1/2 }] := by
    simp only [ObstacleManager.UpdateObstacleLifetimes, c6_manager_obstacles,
      List.map_cons, List.map_nil, c6_decrements.1]
  have hobs2 : ((c6_manager.UpdateObstacleLifetimes (1/2)).UpdateObstacleLifetimes
        (3/5)).obstacles
      = [{ position := ⟨3, 3⟩, otype := .FIXED, remaining_lifetime := 0 }] := by
    simp only [ObstacleManager.UpdateObstacleLifetimes, c6_manager_obstacles,
      List.map_cons, List.map_nil, c6_decrements.1, c6_decrements.2]
  refine ⟨?_, ?_, ?_, ?_, ?_⟩
  · intro L ds hnn hsum
    have hle := foldl_decrement_le ds L hnn
    rw [max_eq_left (by linarith : L - ds.sum ≤ 0)] at hle
    simp only [IsExpired, decide_eq_true_eq]
    exact lt_of_le_of_lt hle (by norm_num [fltEpsilon])
  · simp [ObstacleManager.GetObstacleCount, c6_manager_obstacles]
  · rw [hobs1]
    simp only [List.map_cons, List.map_nil, Obstacle.isExpired]
    rw [c6_expired_values.1]
  · rw [hobs2]
    simp only [List.map_cons, List.map_nil, Obstacle.isExpired]
    rw [c6_expired_values.2]
  · simp only [ObstacleManager.ClearExpiredObstacles,
      ObstacleManager.GetObstacleCount, hobs2]
    simp [Obstacle.isExpired, c6_expired_values.2]

/-- Witness for the general part of C6: lifetime 1 with decrements 0.5 then 0.6. -/
theorem C6_witness :
    IsExpired ([(1 : ℚ)/2, 3/5].foldl DecrementLifetime 1) = true :=
  C6_expiration_threshold.1 1 [1/2, 3/5]
    (by intro d hd; fin_cases hd <;> norm_num)
    (by norm_num [List.sum_cons])

/-- C1 counterexample: in the literal scenario (Moving obstacle at (0,0),
LINEAR_HORIZONTAL, speed 1, direction +1, 5×5 grid) the first `Update()` does
not set position.x to 1: the LINEAR_HORIZONTAL branch of the code moves along y
(direction +1 maps to Up), and the result wraps to (0, 4). -/
theorem C1_counterexample :
    (c1_start.Update 0 ⟨0, 0⟩).position = ⟨0, 4⟩ ∧
      (c1_start.Update 0 ⟨0, 0⟩).position.x ≠ 1 := by decide

/-- C1 amended: in that scenario each `Update()` leaves position.x at 0 and
never flips the direction sign; it decrements position.y by 1, wrapping below
row 0 to row 4, so five calls visit y = 4, 3, 2, 1, 0 (linear patterns wrap
via `ValidateMovement`; they do not bounce). -/
theorem C1_amended_moves_vertically_and_wraps :
    ((c1_start.UpdateRun (List.replicate 1 (0, ⟨0, 0⟩))).position = ⟨0, 4⟩) ∧
      ((c1_start.UpdateRun (List.replicate 2 (0, ⟨0, 0⟩))).position = ⟨0, 3⟩) ∧
      ((c1_start.UpdateRun (List.replicate 3 (0, ⟨0, 0⟩))).position = ⟨0, 2⟩) ∧
      ((c1_start.UpdateRun (List.replicate 4 (0, ⟨0, 0⟩))).position = ⟨0, 1⟩) ∧
      ((c1_start.UpdateRun (List.replicate 5 (0, ⟨0, 0⟩))).position = ⟨0, 0⟩) ∧
      ((c1_start.UpdateRun (List.replicate 5 (0, ⟨0, 0⟩))).direction = 1) := by
  decide

/-- The single moving obstacle held by the manager of the C2 counterexample. -/
lemma c2_manager_obstacles :
    c2_manager.obstacles
      = [{ position := ⟨2, 2⟩, otype := .MOVING, remaining_lifetime := 7,
           pattern := .LINEAR_HORIZONTAL, speed := 1/20 }] := by
  unfold c2_manager ObstacleManager.AddMovingObstacle
  rw [if_pos (by decide)]
  rfl

/-- C2 counterexample: a manager holding one moving obstacle spawned at the
default speed 1/20; `SetDifficultyLevel(3)` raises the speed field of the manager
to 2/25 but the speed of the live obstacle stays 1/20, so the new speed is not
applied to currently-live moving obstacles. -/
theorem C2_counterexample :
    (c2_manager.SetDifficultyLevel 3).obstacles.map Obstacle.speed = [1/20] ∧
      (c2_manager.SetDifficultyLevel 3).moving_obstacle_speed = 2/25 ∧
      (1 : ℚ)/20 ≠ 2/25 := by
  refine ⟨?_, ?_, by norm_num⟩
  · simp [ObstacleManager.SetDifficultyLevel, c2_manager_obstacles]
  · simp only [ObstacleManager.SetDifficultyLevel]
    push_cast
    norm_num

/-- C2 amended: after `SetDifficultyLevel(level)` the spawn rate and the
moving-obstacle speed are linear in the level (slopes 1/10 and 1/100), but
the obstacle collection is untouched: the new speed reaches only obstacles
spawned afterwards, not the currently-live ones. -/
theorem C2_amended_linear_but_existing_unchanged
    (m : ObstacleManager) (level l₁ l₂ : Int) :
    ((m.SetDifficultyLevel l₂).spawn_rate - (m.SetDifficultyLevel l₁).spawn_rate
        = (l₂ - l₁ : ℤ) * (1/10)) ∧
      ((m.SetDifficultyLevel l₂).moving_obstacle_speed
          - (m.SetDifficultyLevel l₁).moving_obstacle_speed
        = (l₂ - l₁ : ℤ) * (1/100)) ∧
      (m.SetDifficultyLevel level).obstacles = m.obstacles := by
  refine ⟨?_, ?_, rfl⟩ <;>
    · unfold ObstacleManager.SetDifficultyLevel
      push_cast
      ring

/-- C3 counterexample: a RANDOM_WALK obstacle at (0,0) with speed 1 on a 5×5
grid, when the draw picks Up (a step that would exit the grid), does move:
the position wraps to (0, 4) instead of staying put. -/
theorem C3_counterexample :
    (c3_start.Update 0 ⟨0, 0⟩).position = ⟨0, 4⟩ ∧
      (c3_start.Update 0 ⟨0, 0⟩).position ≠ c3_start.position := by decide

/-- The random-walk step of the code is exactly a `trunc(speed)`-cell
displacement along the drawn direction: the two definitions coincide. -/
lemma calculateLinearMovement_eq_stepCells (p : SDL_Point) (d : Int) (s : ℚ) :
    CalculateLinearMovement p d s = stepCells p d (cppTrunc s) := rfl

/-- A zero-cell displacement is the identity, whatever the direction. -/
lemma stepCells_zero (p : SDL_Point) (d : Int) : stepCells p d 0 = p := by
  cases p
  unfold stepCells
  split_ifs <;> simp

/-- C3 amended: `Update()` applies the random-walk step on every call (there
is no every-N-ticks gate): whatever the speed, it displaces the position by
`trunc(speed)` cells along the drawn cardinal direction and the result wraps
to the opposite edge when it leaves the grid, rather than the obstacle
staying in place; in particular with any speed below 1 (the default 0.05
included) the displacement is zero cells and an in-bounds obstacle never
moves. -/
theorem C3_amended_random_walk_every_tick_wraps (st : MovingObstacleState)
    (rnd : Int) (trig : SDL_Point) (hpat : st.pattern = .RANDOM_WALK) :
    ((st.Update rnd trig).position
        = wrapPoint (stepCells st.position rnd (cppTrunc st.speed))
            st.grid_width st.grid_height) ∧
      (0 ≤ st.speed → st.speed < 1 →
        inGrid st.position st.grid_width st.grid_height →
        (st.Update rnd trig).position = st.position) := by
  have hmain : (st.Update rnd trig).position
      = wrapPoint (stepCells st.position rnd (cppTrunc st.speed))
          st.grid_width st.grid_height := by
    rw [update_position, validateMovement_const_eq_wrapPoint, hpat]
    simp only [HandlePatternSwitch]
    rw [calculateLinearMovement_eq_stepCells]
  refine ⟨hmain, fun h0 h1 hpos => ?_⟩
  rw [hmain, cppTrunc_eq_zero h0 h1, stepCells_zero]
  exact wrapPoint_of_inGrid _ _ _ hpos

/-- Witness for the amended claim of C3: at speed 1 the counterexample state
with draw 2 (Down) lands on the wrapped one-cell step, and the same state at
the default speed 1/20 does not move. -/
theorem C3_witness :
    ((c3_start.Update 2 ⟨9, 9⟩).position
        = wrapPoint (stepCells c3_start.position 2 (cppTrunc c3_start.speed))
            c3_start.grid_width c3_start.grid_height) ∧
      (MovingObstacleState.Update { c3_start with speed := 1/20 } 2
          ⟨9, 9⟩).position
        = ({ c3_start with speed := 1/20 } : MovingObstacleState).position :=
  ⟨(C3_amended_random_walk_every_tick_wraps c3_start 2 ⟨9, 9⟩ rfl).1,
    (C3_amended_random_walk_every_tick_wraps
        { c3_start with speed := 1/20 } 2 ⟨9, 9⟩ rfl).2
      (by norm_num) (by norm_num) (by decide)⟩

/-- C5: for every obstacle lifetime and every `delta ≥ 0`,
`DecrementLifetime(delta)` sets the remaining lifetime to
`max(0, old - delta)`; the result is never negative, never exceeds a
nonnegative old value, and is strictly below a positive old value whenever
`delta > 0`, so repeated positive decrements strictly decrease the lifetime
until it floors at zero. -/
theorem C5_lifetime_clamped_monotone (old delta : ℚ) (hδ : 0 ≤ delta) :
    DecrementLifetime old delta = max 0 (old - delta) ∧
      0 ≤ DecrementLifetime old delta ∧
      (0 ≤ old → DecrementLifetime old delta ≤ old) ∧
      (0 < delta → 0 < old → DecrementLifetime old delta < old) := by
  refine ⟨rfl, le_max_left _ _, ?_, ?_⟩
  · intro h
    unfold DecrementLifetime
    exact max_le h (by linarith)
  · intro hδpos hold
    unfold DecrementLifetime
    exact max_lt hold (by linarith)

/-- Witness for C5 at `old = 5`, `delta = 2`. -/
theorem C5_witness : DecrementLifetime 5 2 < 5 :=
  (C5_lifetime_clamped_monotone 5 2 (by norm_num)).2.2.2 (by norm_num) (by norm_num)

/-- C7: `CheckCollisionWithPoint(x, y)` returns true iff some obstacle in the
collection sits exactly at `(x, y)`. -/
theorem C7_collision_iff (m : ObstacleManager) (x y : Int) :
    m.CheckCollisionWithPoint x y = true ↔
      ∃ o ∈ m.obstacles, o.position = SDL_Point.mk x y := by
  unfold ObstacleManager.CheckCollisionWithPoint Obstacle.CollidesWithPoint
  rw [List.any_eq_true]
  constructor
  · rintro ⟨o, ho, hcol⟩
    simp only [Bool.and_eq_true, decide_eq_true_eq] at hcol
    refine ⟨o, ho, ?_⟩
    cases hpos : o.position
    rw [hpos] at hcol
    simp_all
  · rintro ⟨o, ho, hpos⟩
    exact ⟨o, ho, by simp [hpos]⟩

/-- C8: adding a fixed or a moving obstacle at a cell that is out of bounds or
already occupied leaves the manager (collection included) entirely unchanged:
placement failure is a silent no-op. -/
theorem C8_add_invalid_noop (m : ObstacleManager) (x y : Int) (lifetime : ℚ)
    (pattern : MovementPattern)
    (h : ¬(0 ≤ x ∧ x < m.grid_width ∧ 0 ≤ y ∧ y < m.grid_height ∧
        m.IsPositionFree x y = true)) :
    m.AddFixedObstacle x y lifetime = m ∧
      m.AddMovingObstacle x y pattern lifetime = m := by
  unfold ObstacleManager.AddFixedObstacle ObstacleManager.AddMovingObstacle
  rw [if_neg h, if_neg h]
  exact ⟨rfl, rfl⟩

/-- Witness for C8: adding at the out-of-bounds cell (-1, 0) of an empty
10×10 manager changes nothing. -/
theorem C8_witness :
    ObstacleManager.AddFixedObstacle { grid_width := 10, grid_height := 10 }
        (-1) 0 12 = { grid_width := 10, grid_height := 10 } :=
  (C8_add_invalid_noop { grid_width := 10, grid_height := 10 } (-1) 0 12
    .LINEAR_HORIZONTAL (by decide)).1

/-- C9: `ClearExpiredObstacles` is idempotent when no decay happens between
the two calls: the second sweep removes nothing. -/
theorem C9_sweep_idempotent (m : ObstacleManager) :
    m.ClearExpiredObstacles.ClearExpiredObstacles = m.ClearExpiredObstacles := by
  unfold ObstacleManager.ClearExpiredObstacles
  simp [List.filter_filter]

end SnakeObstacles
